import Mathlib

/-!
Verification of the recruitment pipeline (multi-agent recruitment system).

Shallow embedding of the repository source:
  - src/workflows/recruitment_graph.py  (RecruitmentWorkflow, the five-node linear graph)
  - src/agents/interpreter_agent.py     (InterpreterAgent.interpret)
  - src/agents/coordinator_agent.py     (CoordinatorAgent)
  - src/agents/researcher_agent.py      (ResearcherAgent)
  - src/agents/executor_agent.py        (ExecutorAgent)
  - src/agents/reviewer_agent.py        (ReviewerAgent)
  - src/rag/policy_vectorstore.py       (PolicyRAG.query_policies)
  - src/config/settings.py              (RAG_CONFIG)

Modelling conventions:
  - JSON values produced by json.loads are modelled by the inductive Json below;
    Python dicts are association lists (JDict) with first-match lookup.
  - Each hosted-model call is external.  Its reply, together with the outcome of the
    strip-code-fences-then-json.loads step applied to it, is an input (LLMOutcome):
    parsed = none models a json.JSONDecodeError, parsed = some d a reply that parsed
    to a JSON object d.  (A reply parsing to a non-object raises an uncaught
    AttributeError at the first attribute access in Python and aborts the run, so it
    never yields a successful run; such replies are outside the some case.)
  - Database effects are external: reads are oracle functions, and each guarded
    INSERT/UPDATE (wrapped in try/except in the source) is modelled by a success
    flag; the compliance-log writes, which claims talk about, are returned as an
    explicit list of rows.
  - Every datetime.now() call site is a separate input string, since the calls can
    return different values.
  - Currency amounts are modelled in the rationals.  Python uses IEEE floats, and at
    every input any claim evaluates (halving of even integer sums, ten percent of
    those halves) the float results are exact integers, so the two semantics agree.
-/

/-! ### Python string helpers -/

/-- Boolean test that one character list occurs contiguously inside another. -/
def listContainsSub (needle : List Char) : List Char → Bool
  | [] => needle.isEmpty
  | c :: rest => needle.isPrefixOf (c :: rest) || listContainsSub needle rest

/-- Python substring membership, the expression  needle in haystack . -/
def strContains (haystack needle : String) : Bool :=
  listContainsSub needle.data haystack.data

/-- Python str.lower, mapping every character to lower case. -/
def pyLower (s : String) : String :=
  String.mk (s.data.map Char.toLower)

/-- Python str.split with no argument: split on whitespace runs, dropping empties. -/
def pySplitWs (s : String) : List String :=
  ((s.data.splitOnP (fun c => c = ' ' || c = '\t' || c = '\n' || c = '\r')).map String.mk).filter
    (fun t => !(t = ""))

/-! ### JSON values and Python dict access -/

/-- JSON values as returned by json.loads. -/
inductive Json where
  | null : Json
  | bool : Bool → Json
  | num : ℚ → Json
  | str : String → Json
  | arr : List Json → Json
  | obj : List (String × Json) → Json

/-- A parsed JSON object / Python dict: an association list with first-match lookup. -/
abbrev JDict := List (String × Json)

/-- Lookup of a key in a dict (Python d[k] or the hit case of d.get). -/
def jLookup (d : JDict) (k : String) : Option Json :=
  match d.find? (fun p => p.1 = k) with
  | some p => some p.2
  | none => none

/-- Python d.get(k, default) with a JSON default. -/
def jGetD (d : JDict) (k : String) (dflt : Json) : Json :=
  (jLookup d k).getD dflt

/-- Python d.get(k, default) at a site where the value is used as text.  A value of
another type would raise at its Python use site (TypeError), aborting the run, so it
is mapped to the default here; claims quantify over successful runs. -/
def jGetStr (d : JDict) (k : String) (dflt : String) : String :=
  match jLookup d k with
  | some (Json.str s) => s
  | _ => dflt

/-- Python d.get(k, default) at a site where the value is used as a number. -/
def jGetNum (d : JDict) (k : String) (dflt : ℚ) : ℚ :=
  match jLookup d k with
  | some (Json.num q) => q
  | _ => dflt

/-- Python d.get(k, \x7b\x7d) at a site where the value is used as a dict. -/
def jGetDict (d : JDict) (k : String) : JDict :=
  match jLookup d k with
  | some (Json.obj f) => f
  | _ => []

/-- Python d.get(k, []) at a site where the value is used as a list. -/
def jGetArr (d : JDict) (k : String) : List Json :=
  match jLookup d k with
  | some (Json.arr l) => l
  | _ => []

/-- View of a JSON value as a dict (attribute access .get on it in Python). -/
def Json.asDict : Json → JDict
  | Json.obj f => f
  | _ => []

/-- String elements of a JSON list value (the source iterates the list and uses each
element as a policy-type string). -/
def jGetStrList (d : JDict) (k : String) : List String :=
  (jGetArr d k).filterMap (fun j => match j with | Json.str s => some s | _ => none)

/-- Python str() rendering as used inside f-strings.  Strings render as themselves;
the rendering of composite values is simplified (no claim depends on it); only the
fixed message prefixes built around these renderings matter to the claims. -/
def Json.pyStr : Json → String
  | Json.str s => s
  | Json.num q => toString q
  | Json.bool true => "True"
  | Json.bool false => "False"
  | Json.null => "None"
  | Json.arr _ => "<list>"
  | Json.obj _ => "<dict>"

/-! ### External collaborators -/

/-- One hosted-model call: the raw reply text together with the outcome of the
strip-code-fences-then-json.loads parse attempt the source applies to it
(none = json.JSONDecodeError). -/
structure LLMOutcome where
  raw : String
  parsed : Option JDict

/-- A row of the salary_bands table as selected by CoordinatorAgent._fetch_salary_bands. -/
structure SalaryBandRow where
  job_level : String
  location : String
  currency : String
  base_range_min : ℚ
  base_range_max : ℚ
  equity_band_min : ℚ
  equity_band_max : ℚ
  benefits_notes : String
  policy_doc_id : String

/-- A langchain Document held by PolicyRAG: page_content plus the metadata fields the
source stores for each policy. -/
structure Doc where
  page_content : String
  policy_id : String
  policy_name : String
  policy_type : String
  doc_id : String
deriving DecidableEq

/-- State of the PolicyRAG instance at query time: whether self.vectorstore is truthy,
the _fallback_documents attribute (none = attribute absent), and the external Chroma
similarity search (Except.error = the call raised). -/
structure RagState where
  vectorstoreAvailable : Bool
  fallbackDocuments : Option (List Doc)
  similaritySearch : String → Option String → Nat → Except Unit (List Doc)

/-- A row inserted into compliance_logs by ReviewerAgent._log_compliance. -/
structure ComplianceRow where
  candidate_id : String
  check_type : String
  result : String
  details : String
  checked_by : String
  checked_at : String
deriving DecidableEq

/-! ### PolicyRAG.query_policies (src/rag/policy_vectorstore.py) -/

namespace PolicyRAG

/-- RAG_CONFIG top_k from src/config/settings.py. -/
def ragTopK : Nat := 3

/-- Python  k = top_k or RAG_CONFIG[top_k] : None and 0 are falsy. -/
def effectiveK : Option Nat → Nat
  | some n => if n = 0 then ragTopK else n
  | none => ragTopK

/-- The filter condition of the fallback loop:
policy_type is None or doc.metadata.get(policy_type) == policy_type. -/
def ptMatch (policy_type : Option String) (d : Doc) : Bool :=
  match policy_type with
  | none => true
  | some t => d.policy_type = t

/-- The fallback loop of query_policies: append each matching document, breaking as
soon as the accumulated result reaches k. -/
def fallbackFilterLoop (policy_type : Option String) (k : Nat) (acc : List Doc) :
    List Doc → List Doc
  | [] => acc
  | d :: ds =>
    if ptMatch policy_type d then
      let acc2 := acc ++ [d]
      if k ≤ acc2.length then acc2 else fallbackFilterLoop policy_type k acc2 ds
    else fallbackFilterLoop policy_type k acc ds

/-- The shared fallback branch: if the _fallback_documents attribute exists and is a
non-empty list, run the filter loop, otherwise return []. -/
def fallbackBranch (rag : RagState) (policy_type : Option String) (k : Nat) : List Doc :=
  match rag.fallbackDocuments with
  | some docs => if docs.isEmpty then [] else fallbackFilterLoop policy_type k [] docs
  | none => []

/-- PolicyRAG.query_policies.  With a truthy vectorstore it delegates to the external
Chroma similarity search (with filter None when policy_type is falsy), falling back
to the document-filter loop when that raises; with no vectorstore it goes straight
to the fallback branch. -/
def queryPolicies (rag : RagState) (query : String) (policy_type : Option String)
    (top_k : Option Nat) : List Doc :=
  let k := effectiveK top_k
  if rag.vectorstoreAvailable then
    let filter_dict := match policy_type with
      | some t => if t = "" then none else some t
      | none => none
    match rag.similaritySearch query filter_dict k with
    | Except.ok results => results
    | Except.error _ => fallbackBranch rag policy_type k
  else
    fallbackBranch rag policy_type k

end PolicyRAG

/-! ### InterpreterAgent (src/agents/interpreter_agent.py) -/

namespace InterpreterAgent

/-- InterpreterAgent.interpret: return the parsed reply, or the structured fallback
dict (which echoes the raw user input as the objective) on a parse failure. -/
def interpret (user_input : String) (outcome : LLMOutcome) : JDict :=
  match outcome.parsed with
  | some result => result
  | none =>
    [("objective", Json.str user_input),
     ("required_data", Json.obj
       [("candidate_info", Json.arr [Json.str "name", Json.str "email", Json.str "location"]),
        ("job_details", Json.arr [Json.str "title", Json.str "level", Json.str "location"]),
        ("salary_bands", Json.str "unknown"),
        ("policies", Json.arr [Json.str "compensation", Json.str "hiring"])]),
     ("constraints", Json.arr [Json.str "Follow company policies"]),
     ("success_criteria", Json.arr [Json.str "Valid output", Json.str "Compliant with policies"]),
     ("next_agent", Json.str "COORDINATOR"),
     ("raw_response", Json.str outcome.raw)]

end InterpreterAgent

/-! ### CoordinatorAgent (src/agents/coordinator_agent.py) -/

namespace CoordinatorAgent

/-- CoordinatorAgent._extract_job_level. -/
def extractJobLevel (task : JDict) : String :=
  let objective := jGetStr task "objective" ""
  let required_data := jGetDict task "required_data"
  let salary_band_info := jGetStr required_data "salary_bands" ""
  if strContains salary_band_info "SOE" then
    if strContains salary_band_info " " then (pySplitWs salary_band_info).headD "" else "SOE-1"
  else if strContains objective "SOE-1" || strContains (pyLower objective) "soe-1" then
    "SOE-1"
  else if strContains objective "SOE-2" || strContains (pyLower objective) "soe-2" then
    "SOE-2"
  else
    "SOE-1"

/-- The fixed location keyword list of CoordinatorAgent._extract_location. -/
def coordinatorLocations : List String := ["Bangalore", "Mumbai", "Delhi", "Hyderabad", "Pune"]

/-- CoordinatorAgent._extract_location: first listed location whose lower-cased name
occurs in the lower-cased objective, defaulting to Bangalore. -/
def extractLocation (task : JDict) : String :=
  let objective := jGetStr task "objective" ""
  match coordinatorLocations.find? (fun loc => strContains (pyLower objective) (pyLower loc)) with
  | some loc => loc
  | none => "Bangalore"

/-- CoordinatorAgent._fetch_salary_bands: dict built from the first matching row, or
the empty dict when the lookup returns nothing. -/
def fetchSalaryBands (fetch : String → String → Option SalaryBandRow)
    (job_level location : String) : JDict :=
  match fetch job_level location with
  | some r =>
    [("job_level", Json.str r.job_level),
     ("location", Json.str r.location),
     ("currency", Json.str r.currency),
     ("base_range_min", Json.num r.base_range_min),
     ("base_range_max", Json.num r.base_range_max),
     ("equity_band_min", Json.num r.equity_band_min),
     ("equity_band_max", Json.num r.equity_band_max),
     ("benefits_notes", Json.str r.benefits_notes),
     ("policy_doc_id", Json.str r.policy_doc_id)]
  | none => []

/-- CoordinatorAgent._fetch_candidate_data: a fixed placeholder record; only the
location field depends on the task. -/
def fetchCandidateData (task : JDict) : JDict :=
  [("candidate_id", Json.str "CAND-2025-001"),
   ("name", Json.str "Raja"),
   ("email", Json.str "raja@example.com"),
   ("location", Json.str (extractLocation task)),
   ("resume_attached", Json.bool true),
   ("status", Json.str "screening")]

/-- Metadata dict stored for a retrieved document, as built in _create_vectorstore. -/
def docMetadata (d : Doc) : Json :=
  Json.obj
    [("policy_id", Json.str d.policy_id),
     ("policy_name", Json.str d.policy_name),
     ("policy_type", Json.str d.policy_type),
     ("doc_id", Json.str d.doc_id)]

/-- CoordinatorAgent._query_policies: one query_policies call per requested policy
type (default list [compensation] when empty), collecting content/metadata pairs. -/
def queryPoliciesForTypes (rag : RagState) (policy_types : List String) : List Json :=
  let pts := if policy_types.isEmpty then ["compensation"] else policy_types
  (pts.map (fun policy_type =>
    (PolicyRAG.queryPolicies rag ("Retrieve " ++ policy_type ++ " policy information")
        (some policy_type) none).map
      (fun d => Json.obj [("content", Json.str d.page_content), ("metadata", docMetadata d)]))).flatten

/-- CoordinatorAgent.coordinate. -/
def coordinate (fetch : String → String → Option SalaryBandRow) (rag : RagState)
    (task : JDict) : JDict :=
  let required_data := jGetDict task "required_data"
  let job_level := extractJobLevel task
  let location := extractLocation task
  let salary_bands := fetchSalaryBands fetch job_level location
  let candidate_data := fetchCandidateData task
  let policies := queryPoliciesForTypes rag (jGetStrList required_data "policies")
  [("salary_bands", Json.obj salary_bands),
   ("candidate_data", Json.obj candidate_data),
   ("policies", Json.arr policies),
   ("job_level", Json.str job_level),
   ("location", Json.str location)]

end CoordinatorAgent

/-! ### ResearcherAgent (src/agents/researcher_agent.py) -/

namespace ResearcherAgent

/-- ResearcherAgent._create_fallback_proposal: deterministic proposal built from the
salary band (midpoints of the base and equity ranges, bonus of ten percent of base),
with hard-coded defaults when a band field is missing. -/
def createFallbackProposal (candidate_data salary_band : JDict) : JDict :=
  let base_min := jGetNum salary_band "base_range_min" 1500000
  let base_max := jGetNum salary_band "base_range_max" 1800000
  let equity_min := jGetNum salary_band "equity_band_min" 100
  let equity_max := jGetNum salary_band "equity_band_max" 200
  let base_salary := (base_min + base_max) / 2
  let equity := (equity_min + equity_max) / 2
  [("candidate_verification", Json.obj
     [("name", Json.str (jGetStr candidate_data "name" "Unknown")),
      ("email", Json.str (jGetStr candidate_data "email" "unknown@example.com")),
      ("location", Json.str (jGetStr candidate_data "location" "Unknown")),
      ("suitability", Json.str "Candidate meets basic requirements")]),
   ("compensation_proposal", Json.obj
     [("base_salary", Json.num base_salary),
      ("equity", Json.num equity),
      ("bonus_target", Json.num (base_salary * (1 / 10))),
      ("total_compensation", Json.num (base_salary + base_salary * (1 / 10))),
      ("justification", Json.str "Midpoint of salary band range")]),
   ("interview_schedule", Json.obj
     [("interview_type", Json.str "Technical + HR Interview"),
      ("proposed_dates", Json.arr
        [Json.str "2026-01-20", Json.str "2026-01-21", Json.str "2026-01-22"]),
      ("recruiters", Json.arr [Json.str "Recruiter 1"]),
      ("tech_interviewers", Json.arr [Json.str "Tech Lead 1", Json.str "Senior Engineer 1"]),
      ("availability_window", Json.str "10:00-16:00 IST")]),
   ("compliance_notes", Json.arr [Json.str "Standard compliance checks required"])]

/-- ResearcherAgent.research: the parsed reply, or the fallback proposal built from
the coordinated candidate data and salary band on a parse failure.  The task dict is
consulted only inside the prompt text of the external call. -/
def research (task coordinated_data : JDict) (outcome : LLMOutcome) : JDict :=
  let candidate_data := jGetDict coordinated_data "candidate_data"
  let salary_band := jGetDict coordinated_data "salary_bands"
  match outcome.parsed with
  | some result => result
  | none => createFallbackProposal candidate_data salary_band

end ResearcherAgent

/-! ### ExecutorAgent (src/agents/executor_agent.py) -/

/-- External effects consumed by one ExecutorAgent.execute call: the success of each
guarded store write (each INSERT sits in its own try/except in the source; a False
flag models the body raising), the auto-generated id of the proposal row, the reply
text of the email-drafting model call, and the value of each datetime.now() site. -/
structure ExecEnv where
  candidateWriteOk : Bool
  scheduleWriteOk : Bool
  proposalWriteOk : Bool
  lastrowid : ℚ
  emailDraft : String
  candStamp : String
  intStamp : String
  execTimestamp : String

namespace ExecutorAgent

/-- ExecutorAgent._create_candidate_record: the id comes from the coordinated
candidate data, with a timestamp-based fallback id when the key is absent.  The
guarded upsert does not affect the returned id (its failure is only logged). -/
def createCandidateRecord (io : ExecEnv) (candidate_data research_results : JDict) : String :=
  jGetStr candidate_data "candidate_id" ("CAND-" ++ io.candStamp)

/-- ExecutorAgent._schedule_interviews: iterate over proposed_dates[:1] (so at most
one insert is attempted); an id is appended only when the guarded insert succeeds. -/
def scheduleInterviews (io : ExecEnv) (candidate_id : String) (research_results : JDict) :
    List String :=
  let interview_schedule := jGetDict research_results "interview_schedule"
  ((jGetArr interview_schedule "proposed_dates").take 1).foldl
    (fun schedule_ids _date =>
      if io.scheduleWriteOk then schedule_ids ++ ["INT-" ++ io.intStamp] else schedule_ids)
    []

/-- ExecutorAgent._create_compensation_proposal: lastrowid of the inserted row, or 0
when the guarded insert fails. -/
def createCompensationProposal (io : ExecEnv) (candidate_id : String)
    (research_results : JDict) : ℚ :=
  if io.proposalWriteOk then io.lastrowid else 0

/-- ExecutorAgent.execute. -/
def execute (io : ExecEnv) (research_results coordinated_data : JDict) : JDict :=
  let candidate_data := jGetDict coordinated_data "candidate_data"
  let candidate_id := createCandidateRecord io candidate_data research_results
  let schedule_ids := scheduleInterviews io candidate_id research_results
  let email_draft := io.emailDraft
  let proposal_id := createCompensationProposal io candidate_id research_results
  [("candidate_id", Json.str candidate_id),
   ("schedule_ids", Json.arr (schedule_ids.map Json.str)),
   ("proposal_id", Json.num proposal_id),
   ("email_draft", Json.str email_draft),
   ("execution_status", Json.str "completed"),
   ("timestamp", Json.str io.execTimestamp)]

end ExecutorAgent

/-! ### ReviewerAgent (src/agents/reviewer_agent.py) -/

namespace ReviewerAgent

/-- The per-check insert loop of ReviewerAgent._log_compliance: one compliance_logs
row per entry of the compliance_checks dict, in order; each insert sits in its own
try/except, so a failing insert (rowOk i = false) is skipped and the loop goes on. -/
def logComplianceRows (rowOk : Nat → Bool) (now : String) (candidate_id : String)
    (i : Nat) : JDict → List ComplianceRow
  | [] => []
  | (check_type, check_result) :: rest =>
    let tail := logComplianceRows rowOk now candidate_id (i + 1) rest
    if rowOk i then
      { candidate_id := candidate_id,
        check_type := check_type,
        result := jGetStr check_result.asDict "status" "UNKNOWN",
        details := jGetStr check_result.asDict "details" "",
        checked_by := "REVIEWER_AGENT",
        checked_at := now } :: tail
    else tail

/-- ReviewerAgent._log_compliance: nothing is written when candidate_id is falsy,
otherwise one row per entry of compliance_checks. -/
def logCompliance (rowOk : Nat → Bool) (now : String) (candidate_id : String)
    (review_result : JDict) : List ComplianceRow :=
  if candidate_id = "" then []
  else logComplianceRows rowOk now candidate_id 0 (jGetDict review_result "compliance_checks")

/-- ReviewerAgent.review: on a successful parse, log compliance rows keyed by the
execution record candidate_id and return the parsed reply unchanged; on a parse
failure, return the optimistic fallback verdict (APPROVED, all four checks PASS)
without logging anything.  The result pairs the returned dict with the rows written
to compliance_logs. -/
def review (execution_results coordinated_data : JDict) (outcome : LLMOutcome)
    (rowOk : Nat → Bool) (now : String) : JDict × List ComplianceRow :=
  match outcome.parsed with
  | some result =>
    (result, logCompliance rowOk now (jGetStr execution_results "candidate_id" "") result)
  | none =>
    ([("validation_status", Json.str "APPROVED"),
      ("compliance_checks", Json.obj
        [("content_language", Json.obj
           [("status", Json.str "PASS"), ("details", Json.str "No issues detected")]),
         ("compensation", Json.obj
           [("status", Json.str "PASS"), ("details", Json.str "Within salary band")]),
         ("scheduling", Json.obj
           [("status", Json.str "PASS"), ("details", Json.str "Schedule looks valid")]),
         ("data_integrity", Json.obj
           [("status", Json.str "PASS"), ("details", Json.str "All required fields present")])]),
      ("issues_found", Json.arr []),
      ("recommendations", Json.arr []),
      ("raw_response", Json.str outcome.raw)],
     [])

end ReviewerAgent

/-! ### RecruitmentWorkflow (src/workflows/recruitment_graph.py) -/

/-- All external inputs of one run: the three parse outcomes of the interpreter,
researcher and reviewer model calls, the salary-band lookup, the RAG state, the
executor effects, and the reviewer compliance-insert effects. -/
structure Env where
  interpretOutcome : LLMOutcome
  researchOutcome : LLMOutcome
  reviewOutcome : LLMOutcome
  fetchSalaryBand : String → String → Option SalaryBandRow
  rag : RagState
  io : ExecEnv
  complianceRowOk : Nat → Bool
  complianceTime : String

/-- The shared state threaded through the graph (RecruitmentState TypedDict). -/
structure RecruitmentState where
  user_input : String
  interpreted_task : JDict
  coordinated_data : JDict
  research_results : JDict
  execution_results : JDict
  review_results : JDict
  final_output : JDict
  messages : List String

/-- The initial state built by RecruitmentWorkflow.run. -/
def initialState (user_input : String) : RecruitmentState :=
  { user_input := user_input, interpreted_task := [], coordinated_data := [],
    research_results := [], execution_results := [], review_results := [],
    final_output := [], messages := [] }

/-- RecruitmentWorkflow._interpreter_node. -/
def interpreterNode (env : Env) (state : RecruitmentState) : RecruitmentState :=
  let interpreted_task := InterpreterAgent.interpret state.user_input env.interpretOutcome
  { state with
    interpreted_task := interpreted_task,
    messages := state.messages ++
      ["[INTERPRETER] Interpreted task: " ++
        (jGetD interpreted_task "objective" (Json.str "N/A")).pyStr] }

/-- RecruitmentWorkflow._coordinator_node. -/
def coordinatorNode (env : Env) (state : RecruitmentState) : RecruitmentState :=
  let coordinated_data := CoordinatorAgent.coordinate env.fetchSalaryBand env.rag
    state.interpreted_task
  { state with
    coordinated_data := coordinated_data,
    messages := state.messages ++
      ["[COORDINATOR] Gathered data for " ++
        (jGetD coordinated_data "job_level" (Json.str "N/A")).pyStr] }

/-- RecruitmentWorkflow._researcher_node. -/
def researcherNode (env : Env) (state : RecruitmentState) : RecruitmentState :=
  let research_results := ResearcherAgent.research state.interpreted_task
    state.coordinated_data env.researchOutcome
  let comp := jGetDict research_results "compensation_proposal"
  { state with
    research_results := research_results,
    messages := state.messages ++
      ["[RESEARCHER] Proposed compensation: " ++
        (jGetD comp "base_salary" (Json.num 0)).pyStr ++ " base"] }

/-- RecruitmentWorkflow._executor_node. -/
def executorNode (env : Env) (state : RecruitmentState) : RecruitmentState :=
  let execution_results := ExecutorAgent.execute env.io state.research_results
    state.coordinated_data
  { state with
    execution_results := execution_results,
    messages := state.messages ++
      ["[EXECUTOR] Created candidate " ++
        (jGetD execution_results "candidate_id" (Json.str "N/A")).pyStr] }

/-- RecruitmentWorkflow._reviewer_node, which also compiles final_output.  The rows
the reviewer wrote to compliance_logs are returned alongside the state. -/
def reviewerNode (env : Env) (state : RecruitmentState) :
    RecruitmentState × List ComplianceRow :=
  let reviewed := ReviewerAgent.review state.execution_results state.coordinated_data
    env.reviewOutcome env.complianceRowOk env.complianceTime
  let review_results := reviewed.1
  ({ state with
     review_results := review_results,
     messages := state.messages ++
       ["[REVIEWER] Validation: " ++
         (jGetD review_results "validation_status" (Json.str "N/A")).pyStr],
     final_output :=
       [("candidate", Json.obj state.execution_results),
        ("research", Json.obj state.research_results),
        ("review", Json.obj review_results)] },
   reviewed.2)

/-- One engine superstep of the compiled graph: run the node on the current channel
values and apply the state it returns through the channel reducers.  Every field
except messages is a last-value channel, so the returned value replaces the old one.
messages is declared  Annotated[list, operator.add]  (recruitment_graph.py, line
19): the node appends its entry to the very list object it received — aliasing the
channel value — and returns the whole list, so the reducer computes value + update
with both operands being that already-appended list.  Every superstep therefore
re-adds all earlier audit entries. -/
def applySuperstep (node : RecruitmentState → RecruitmentState)
    (state : RecruitmentState) : RecruitmentState :=
  let returned := node state
  { returned with messages := returned.messages ++ returned.messages }

/-- RecruitmentWorkflow.run: the compiled graph is the linear chain
interpreter → coordinator → researcher → executor → reviewer → END, one node per
superstep, each applied through the channel reducers (applySuperstep).  Applying
the initial input state to the channels leaves messages empty ([] + [] = []).  The
compliance rows written during the run are returned alongside the final state. -/
def runWorkflow (env : Env) (user_input : String) :
    RecruitmentState × List ComplianceRow :=
  let s1 := applySuperstep (interpreterNode env) (initialState user_input)
  let s2 := applySuperstep (coordinatorNode env) s1
  let s3 := applySuperstep (researcherNode env) s2
  let s4 := applySuperstep (executorNode env) s3
  let r5 := reviewerNode env s4
  ({ r5.1 with messages := r5.1.messages ++ r5.1.messages }, r5.2)

/-! ### Concrete external inputs used by closed counterexamples and witnesses -/

/-- An executor environment in which every guarded store write succeeds. -/
def ioDefault : ExecEnv :=
  { candidateWriteOk := true, scheduleWriteOk := true, proposalWriteOk := true,
    lastrowid := 1, emailDraft := "Dear Raja",
    candStamp := "20260112-090000", intStamp := "20260112-090001",
    execTimestamp := "2026-01-12T09:00:02" }

/-- A RAG state with no vectorstore and no fallback documents (empty store). -/
def ragUnavailable : RagState :=
  { vectorstoreAvailable := false, fallbackDocuments := none,
    similaritySearch := fun _ _ _ => Except.error () }

/-- A run environment in which every hosted-model reply fails to parse, the salary
band lookup is empty and every store write succeeds. -/
def envFallbacks : Env :=
  { interpretOutcome := { raw := "free text reply", parsed := none },
    researchOutcome := { raw := "free text reply", parsed := none },
    reviewOutcome := { raw := "free text reply", parsed := none },
    fetchSalaryBand := fun _ _ => none,
    rag := ragUnavailable,
    io := ioDefault,
    complianceRowOk := fun _ => true,
    complianceTime := "2026-01-12 09:00:03" }

/-- Like envFallbacks, but the reviewer reply parses to a JSON object whose
validation_status is the string MAYBE. -/
def envReviewMaybe : Env :=
  { envFallbacks with
    reviewOutcome := { raw := "", parsed := some [("validation_status", Json.str "MAYBE")] } }

/-! ### C1 -/

/-- The messages channel value produced by one superstep under the operator.add
reducer: the node has appended its entry m to the accumulated log v and returned
the whole list, which the reducer adds to the channel value it aliases. -/
def reducerStep (v : List String) (m : String) : List String :=
  (v ++ [m]) ++ (v ++ [m])

/-- The final messages channel after the supersteps have appended the given stage
entries in order, starting from the empty log. -/
def reducerLog (entries : List String) : List String :=
  entries.foldl reducerStep []

/-- C1 counterexample: a successful run whose audit log opens with the interpreter
entry twice in a row and holds 62 entries in all — the operator.add reducer re-adds
the accumulated log at every superstep, so the messages list is not the five
stage-name entries in order with no repeats. -/
theorem run_audit_log_duplication_cex :
    (runWorkflow envFallbacks "Hire an engineer").1.messages.take 2 =
      ["[INTERPRETER] Interpreted task: Hire an engineer",
       "[INTERPRETER] Interpreted task: Hire an engineer"]
    ∧ (runWorkflow envFallbacks "Hire an engineer").1.messages.length = 62 :=
  ⟨rfl, rfl⟩

/-- C1 amended: the five stages still execute exactly once each, in the fixed order
Interpret, Coordinate, Research, Execute, Review, and each superstep appends exactly
one new entry carrying its stage tag, in that order; but the operator.add reducer
then re-adds the whole accumulated log, so the final audit log is the duplication
pattern reducerLog of the five tagged entries — earlier stage entries repeat (32,
16, 8, 4 and 2 occurrences respectively), with first occurrences in stage order —
rather than the repeat-free five-entry list. -/
theorem run_audit_log_stage_order_amended (env : Env) (user_input : String) :
    ∃ r1 r2 r3 r4 r5,
      (runWorkflow env user_input).1.messages =
        reducerLog
          ["[INTERPRETER] " ++ r1, "[COORDINATOR] " ++ r2, "[RESEARCHER] " ++ r3,
           "[EXECUTOR] " ++ r4, "[REVIEWER] " ++ r5] :=
  ⟨"Interpreted task: " ++
     (jGetD (interpreterNode env (initialState user_input)).interpreted_task
        "objective" (Json.str "N/A")).pyStr,
   "Gathered data for " ++
     (jGetD (coordinatorNode env (applySuperstep (interpreterNode env)
         (initialState user_input))).coordinated_data
        "job_level" (Json.str "N/A")).pyStr,
   ("Proposed compensation: " ++
     (jGetD (jGetDict (researcherNode env (applySuperstep (coordinatorNode env)
         (applySuperstep (interpreterNode env)
           (initialState user_input)))).research_results
         "compensation_proposal") "base_salary" (Json.num 0)).pyStr) ++ " base",
   "Created candidate " ++
     (jGetD (executorNode env (applySuperstep (researcherNode env)
         (applySuperstep (coordinatorNode env) (applySuperstep (interpreterNode env)
           (initialState user_input))))).execution_results
        "candidate_id" (Json.str "N/A")).pyStr,
   "Validation: " ++
     (jGetD (runWorkflow env user_input).1.review_results
        "validation_status" (Json.str "N/A")).pyStr,
   rfl⟩

/-! ### C2 -/

/-- C2 counterexample: a successful run in which the reviewer reply parses to a JSON
object with validation_status MAYBE; final_output.review.validation_status is then
MAYBE, which is neither APPROVED nor REJECTED, refuting the claim that the status is
always one of the two enum values for every reply text. -/
theorem review_status_totality_cex :
    jGetStr (jGetDict (runWorkflow envReviewMaybe "Hire an engineer").1.final_output "review")
        "validation_status" "" = "MAYBE"
    ∧ ("MAYBE" : String) ≠ "APPROVED" ∧ ("MAYBE" : String) ≠ "REJECTED" :=
  ⟨rfl, by decide, by decide⟩

/-- C2 amended: the returned validation_status is APPROVED whenever the reviewer
reply fails to parse; when the reply parses to a JSON object, review returns that
object unchanged, so validation_status is whatever the reply contained (not
necessarily APPROVED or REJECTED). -/
theorem review_status_characterization (execution_results coordinated_data : JDict)
    (raw now : String) (parsed : Option JDict) (rowOk : Nat → Bool) :
    jGetStr (ReviewerAgent.review execution_results coordinated_data
        { raw := raw, parsed := parsed } rowOk now).1 "validation_status" "UNKNOWN" =
      (match parsed with
       | none => "APPROVED"
       | some r => jGetStr r "validation_status" "UNKNOWN") := by
  cases parsed with
  | none => rfl
  | some r => rfl

/-! ### C3 -/

/-- C3: whenever the reviewer reply fails to parse as JSON, review returns the
optimistic fallback verdict: validation_status APPROVED, all four named compliance
checks PASS, and empty issues_found and recommendations. -/
theorem review_parse_failure_fallback (execution_results coordinated_data : JDict)
    (raw now : String) (rowOk : Nat → Bool) :
    jGetStr (ReviewerAgent.review execution_results coordinated_data
        { raw := raw, parsed := none } rowOk now).1 "validation_status" "" = "APPROVED"
    ∧ jGetStr (jGetDict (jGetDict (ReviewerAgent.review execution_results coordinated_data
        { raw := raw, parsed := none } rowOk now).1 "compliance_checks")
        "content_language") "status" "" = "PASS"
    ∧ jGetStr (jGetDict (jGetDict (ReviewerAgent.review execution_results coordinated_data
        { raw := raw, parsed := none } rowOk now).1 "compliance_checks")
        "compensation") "status" "" = "PASS"
    ∧ jGetStr (jGetDict (jGetDict (ReviewerAgent.review execution_results coordinated_data
        { raw := raw, parsed := none } rowOk now).1 "compliance_checks")
        "scheduling") "status" "" = "PASS"
    ∧ jGetStr (jGetDict (jGetDict (ReviewerAgent.review execution_results coordinated_data
        { raw := raw, parsed := none } rowOk now).1 "compliance_checks")
        "data_integrity") "status" "" = "PASS"
    ∧ jGetArr (ReviewerAgent.review execution_results coordinated_data
        { raw := raw, parsed := none } rowOk now).1 "issues_found" = []
    ∧ jGetArr (ReviewerAgent.review execution_results coordinated_data
        { raw := raw, parsed := none } rowOk now).1 "recommendations" = [] :=
  ⟨rfl, rfl, rfl, rfl, rfl, rfl, rfl⟩

/-! ### C4 -/

/-- The salary band record named by C4. -/
def c4SalaryBand : JDict :=
  [("base_range_min", Json.num 1500000), ("base_range_max", Json.num 1800000),
   ("equity_band_min", Json.num 100), ("equity_band_max", Json.num 200)]

/-- C4: if the researcher reply fails to parse and the coordinated salary band is
(1500000, 1800000, 100, 200), the fallback compensation proposal has base 1650000
(the midpoint), equity 150 (midpoint of the equity band), bonus 165000 (ten percent
of base) and total 1815000 (base plus bonus). -/
theorem research_fallback_midpoints (task candidate_data : JDict) (raw : String) :
    jGetNum (jGetDict (ResearcherAgent.research task
        [("salary_bands", Json.obj c4SalaryBand), ("candidate_data", Json.obj candidate_data)]
        { raw := raw, parsed := none }) "compensation_proposal") "base_salary" 0 = 1650000
    ∧ jGetNum (jGetDict (ResearcherAgent.research task
        [("salary_bands", Json.obj c4SalaryBand), ("candidate_data", Json.obj candidate_data)]
        { raw := raw, parsed := none }) "compensation_proposal") "equity" 0 = 150
    ∧ jGetNum (jGetDict (ResearcherAgent.research task
        [("salary_bands", Json.obj c4SalaryBand), ("candidate_data", Json.obj candidate_data)]
        { raw := raw, parsed := none }) "compensation_proposal") "bonus_target" 0 = 165000
    ∧ jGetNum (jGetDict (ResearcherAgent.research task
        [("salary_bands", Json.obj c4SalaryBand), ("candidate_data", Json.obj candidate_data)]
        { raw := raw, parsed := none }) "compensation_proposal") "total_compensation" 0
        = 1815000 := by
  refine ⟨?_, ?_, ?_, ?_⟩
  · show ((1500000 : ℚ) + 1800000) / 2 = 1650000
    norm_num
  · show ((100 : ℚ) + 200) / 2 = 150
    norm_num
  · show ((1500000 : ℚ) + 1800000) / 2 * (1 / 10) = 165000
    norm_num
  · show ((1500000 : ℚ) + 1800000) / 2 + ((1500000 : ℚ) + 1800000) / 2 * (1 / 10) = 1815000
    norm_num

/-! ### C5 -/

/-- An interpreted task whose objective contains no job-level and no location
keyword, but whose required_data.salary_bands text contains SOE. -/
def c5Task : JDict :=
  [("objective", Json.str "hire a strong developer"),
   ("required_data", Json.obj [("salary_bands", Json.str "SOE-5 bands")])]

/-- C5 counterexample: the objective of c5Task contains none of the keywords SOE-1,
SOE-2 or a listed location, yet the coordinator resolves job_level to SOE-5 (taken
from required_data.salary_bands), not to the default SOE-1 — refuting the claim as
stated over every interpreted task. -/
theorem coordinate_defaults_cex :
    (strContains (jGetStr c5Task "objective" "") "SOE-1" = false
     ∧ strContains (pyLower (jGetStr c5Task "objective" "")) "soe-1" = false
     ∧ strContains (jGetStr c5Task "objective" "") "SOE-2" = false
     ∧ strContains (pyLower (jGetStr c5Task "objective" "")) "soe-2" = false
     ∧ (∀ loc ∈ CoordinatorAgent.coordinatorLocations,
          strContains (pyLower (jGetStr c5Task "objective" "")) (pyLower loc) = false))
    ∧ CoordinatorAgent.extractJobLevel c5Task = "SOE-5"
    ∧ ("SOE-5" : String) ≠ "SOE-1" := by
  refine ⟨⟨?_, ?_, ?_, ?_, ?_⟩, ?_, ?_⟩ <;> decide

/-- C5 amended: if, in addition to the objective containing no job-level keyword
(SOE-1 or SOE-2, in either case) and no listed location keyword, the task's
required_data.salary_bands text does not contain SOE, then the coordinator resolves
job_level to SOE-1 and location to Bangalore (the defaults), without error. -/
theorem coordinate_defaults_amended (task : JDict)
    (hsb : strContains (jGetStr (jGetDict task "required_data") "salary_bands" "") "SOE" = false)
    (h1 : strContains (jGetStr task "objective" "") "SOE-1" = false)
    (h2 : strContains (pyLower (jGetStr task "objective" "")) "soe-1" = false)
    (h3 : strContains (jGetStr task "objective" "") "SOE-2" = false)
    (h4 : strContains (pyLower (jGetStr task "objective" "")) "soe-2" = false)
    (hloc : ∀ loc ∈ CoordinatorAgent.coordinatorLocations,
        strContains (pyLower (jGetStr task "objective" "")) (pyLower loc) = false) :
    CoordinatorAgent.extractJobLevel task = "SOE-1" ∧
    CoordinatorAgent.extractLocation task = "Bangalore" := by
  constructor
  · simp only [CoordinatorAgent.extractJobLevel]
    simp [hsb, h1, h2, h3, h4]
  · simp only [CoordinatorAgent.extractLocation]
    have hfind : CoordinatorAgent.coordinatorLocations.find?
        (fun loc => strContains (pyLower (jGetStr task "objective" "")) (pyLower loc)) = none := by
      apply List.find?_eq_none.mpr
      intro loc hl
      simp [hloc loc hl]
    simp [hfind]

/-- A task with no recognizable keyword anywhere, used to witness the amended C5. -/
def c5WitnessTask : JDict :=
  [("objective", Json.str "hire a backend developer"),
   ("required_data", Json.obj [("salary_bands", Json.str "unknown")])]

/-- Witness for the amended C5 at a concrete keyword-free task. -/
theorem coordinate_defaults_amended_witness :
    CoordinatorAgent.extractJobLevel c5WitnessTask = "SOE-1" ∧
    CoordinatorAgent.extractLocation c5WitnessTask = "Bangalore" :=
  coordinate_defaults_amended c5WitnessTask (by decide) (by decide) (by decide)
    (by decide) (by decide) (by decide)

/-! ### C6 -/

/-- Modelled from the claim text only (used to state, not to define, the ranking
property): the number of whitespace-separated keywords of the query that occur in a
given content string. -/
def keywordOverlap (query content : String) : Nat :=
  ((pySplitWs query).filter (fun w => strContains content w)).length

/-- A document matching one keyword of the query used in the C6 counterexample. -/
def docB : Doc :=
  { page_content := "alpha", policy_id := "P2", policy_name := "Policy B",
    policy_type := "compensation", doc_id := "D2" }

/-- A document matching three keywords of the query used in the C6 counterexample. -/
def docA : Doc :=
  { page_content := "alpha beta gamma", policy_id := "P1", policy_name := "Policy A",
    policy_type := "compensation", doc_id := "D1" }

/-- A RAG state in fallback mode holding docB before docA in insertion order. -/
def ragC6 : RagState :=
  { vectorstoreAvailable := false, fallbackDocuments := some [docB, docA],
    similaritySearch := fun _ _ _ => Except.error () }

/-- C6 counterexample: document docA contains 3 of the query keywords and docB only
1, yet query_policies returns docB before docA (original insertion order): no
keyword-overlap ranking is applied, refuting the claimed ordering. -/
theorem query_policies_ranking_cex :
    keywordOverlap "alpha beta gamma" docA.page_content = 3
    ∧ keywordOverlap "alpha beta gamma" docB.page_content = 1
    ∧ PolicyRAG.queryPolicies ragC6 "alpha beta gamma" (some "compensation") none
        = [docB, docA]
    ∧ docB ≠ docA := by
  refine ⟨?_, ?_, ?_, ?_⟩ <;> decide

/-- The effective result cap of query_policies is always positive. -/
theorem effectiveK_pos (top_k : Option Nat) : 0 < PolicyRAG.effectiveK top_k := by
  cases top_k with
  | none => decide
  | some n =>
    by_cases h : n = 0 <;> simp [PolicyRAG.effectiveK, PolicyRAG.ragTopK, h] <;> omega

/-- The fallback loop of query_policies returns the accumulated prefix followed by
the type-filtered documents in their original order, capped at the remaining room. -/
theorem fallbackFilterLoop_eq (policy_type : Option String) :
    ∀ (docs : List Doc) (k : Nat) (acc : List Doc), acc.length < k →
      PolicyRAG.fallbackFilterLoop policy_type k acc docs =
        acc ++ (docs.filter (PolicyRAG.ptMatch policy_type)).take (k - acc.length) := by
  intro docs
  induction docs with
  | nil => intro k acc h; simp [PolicyRAG.fallbackFilterLoop]
  | cons d ds ih =>
    intro k acc h
    simp only [PolicyRAG.fallbackFilterLoop]
    by_cases hm : PolicyRAG.ptMatch policy_type d = true
    · simp only [hm, if_true, List.filter_cons, List.length_append, List.length_cons,
        List.length_nil]
      by_cases hk : k ≤ acc.length + 1
      · have hk2 : k - acc.length = 1 := by omega
        simp only [if_pos (by simpa using hk), hk2, List.take_succ_cons, List.take_zero]
      · have hlt : acc.length + 1 < k := by omega
        rw [if_neg (by simpa using hk), ih k (acc ++ [d]) (by simpa using hlt)]
        obtain ⟨m, hmn⟩ : ∃ m, k - acc.length = m + 1 := ⟨k - acc.length - 1, by omega⟩
        have hm2 : k - (acc ++ [d]).length = m := by
          simp only [List.length_append, List.length_cons, List.length_nil]
          omega
        rw [hm2, hmn, List.take_succ_cons, List.append_assoc]
        rfl
    · simp only [Bool.not_eq_true] at hm
      simp only [hm, Bool.false_eq_true, if_false, List.filter_cons, ih k acc h]

/-- C6 amended: in fallback mode (no vectorstore), query_policies returns the
documents whose policy_type matches the filter, in their original insertion order,
capped at the effective top-k — which defaults to 3 — independently of any keyword
overlap with the query. -/
theorem query_policies_fallback_order (rag : RagState) (query : String)
    (policy_type : Option String) (top_k : Option Nat) (docs : List Doc)
    (hvs : rag.vectorstoreAvailable = false)
    (hfb : rag.fallbackDocuments = some docs) :
    PolicyRAG.queryPolicies rag query policy_type top_k =
      (docs.filter (PolicyRAG.ptMatch policy_type)).take (PolicyRAG.effectiveK top_k)
    ∧ PolicyRAG.effectiveK none = 3 := by
  constructor
  · simp only [PolicyRAG.queryPolicies, hvs, Bool.false_eq_true, if_false,
      PolicyRAG.fallbackBranch, hfb]
    by_cases hd : docs.isEmpty
    · rw [if_pos hd]
      rw [List.isEmpty_iff] at hd
      simp [hd]
    · rw [if_neg hd,
        fallbackFilterLoop_eq policy_type docs (PolicyRAG.effectiveK top_k) []
          (by simpa using effectiveK_pos top_k)]
      simp
  · rfl

/-- Witness for the amended C6 at the concrete fallback store of the counterexample. -/
theorem query_policies_fallback_order_witness :
    PolicyRAG.queryPolicies ragC6 "retrieve compensation policy" (some "compensation") none =
      ([docB, docA].filter (PolicyRAG.ptMatch (some "compensation"))).take
        (PolicyRAG.effectiveK none)
    ∧ PolicyRAG.effectiveK none = 3 :=
  query_policies_fallback_order ragC6 "retrieve compensation policy" (some "compensation")
    none [docB, docA] rfl rfl

/-! ### C7 -/

/-- C7: the executor iterates over proposed_dates[:1], so it attempts at most one
interview-schedule insert, and the schedule_ids list it returns — both from
_schedule_interviews directly and inside the execute result record — has length at
most 1, for every research result and every store behaviour. -/
theorem schedule_ids_at_most_one (io : ExecEnv) (candidate_id : String)
    (research_results coordinated_data : JDict) :
    (ExecutorAgent.scheduleInterviews io candidate_id research_results).length ≤ 1
    ∧ (jGetArr (ExecutorAgent.execute io research_results coordinated_data)
        "schedule_ids").length ≤ 1 := by
  have h1 : ∀ cid : String,
      (ExecutorAgent.scheduleInterviews io cid research_results).length ≤ 1 := by
    intro cid
    rcases hd : jGetArr (jGetDict research_results "interview_schedule") "proposed_dates" with
      _ | ⟨d, ds⟩
    · simp [ExecutorAgent.scheduleInterviews, hd]
    · cases hb : io.scheduleWriteOk <;>
        simp [ExecutorAgent.scheduleInterviews, hd, hb, List.take_succ_cons]
  have h2 : jGetArr (ExecutorAgent.execute io research_results coordinated_data)
      "schedule_ids" =
      (ExecutorAgent.scheduleInterviews io
        (ExecutorAgent.createCandidateRecord io (jGetDict coordinated_data "candidate_data")
          research_results) research_results).map Json.str := rfl
  refine ⟨h1 candidate_id, ?_⟩
  rw [h2, List.length_map]
  exact h1 _

/-! ### C8 -/

/-- C8: when the guarded store writes of the Execute stage fail (candidate upsert,
schedule insert, proposal insert), the stage still returns normally with best-effort
partial results: execution_status is completed, candidate_id is the id taken from
the coordinated candidate data (or the generated fallback id) unaffected by the
failed upsert, schedule_ids is empty, and proposal_id is 0. -/
theorem execute_best_effort_on_store_failure (io : ExecEnv)
    (research_results coordinated_data : JDict)
    (hc : io.candidateWriteOk = false) (hs : io.scheduleWriteOk = false)
    (hp : io.proposalWriteOk = false) :
    jGetStr (ExecutorAgent.execute io research_results coordinated_data)
        "execution_status" "" = "completed"
    ∧ jGetStr (ExecutorAgent.execute io research_results coordinated_data)
        "candidate_id" "" =
        jGetStr (jGetDict coordinated_data "candidate_data") "candidate_id"
          ("CAND-" ++ io.candStamp)
    ∧ jGetArr (ExecutorAgent.execute io research_results coordinated_data)
        "schedule_ids" = []
    ∧ jGetNum (ExecutorAgent.execute io research_results coordinated_data)
        "proposal_id" 1 = 0 := by
  refine ⟨rfl, rfl, ?_, ?_⟩
  · have h2 : jGetArr (ExecutorAgent.execute io research_results coordinated_data)
        "schedule_ids" =
        (ExecutorAgent.scheduleInterviews io
          (ExecutorAgent.createCandidateRecord io (jGetDict coordinated_data "candidate_data")
            research_results) research_results).map Json.str := rfl
    rw [h2]
    rcases hd : jGetArr (jGetDict research_results "interview_schedule") "proposed_dates" with
      _ | ⟨d, ds⟩ <;>
      simp [ExecutorAgent.scheduleInterviews, hd, hs, List.take_succ_cons]
  · have h3 : jGetNum (ExecutorAgent.execute io research_results coordinated_data)
        "proposal_id" 1 =
        ExecutorAgent.createCompensationProposal io
          (ExecutorAgent.createCandidateRecord io (jGetDict coordinated_data "candidate_data")
            research_results) research_results := rfl
    rw [h3]
    simp [ExecutorAgent.createCompensationProposal, hp]

/-- An executor environment in which every guarded store write fails. -/
def ioAllFail : ExecEnv :=
  { candidateWriteOk := false, scheduleWriteOk := false, proposalWriteOk := false,
    lastrowid := 7, emailDraft := "Dear Raja",
    candStamp := "20260112-090000", intStamp := "20260112-090001",
    execTimestamp := "2026-01-12T09:00:02" }

/-- Witness for C8 at a concrete all-writes-fail environment and empty inputs. -/
theorem execute_best_effort_on_store_failure_witness :
    jGetStr (ExecutorAgent.execute ioAllFail [] []) "execution_status" "" = "completed"
    ∧ jGetStr (ExecutorAgent.execute ioAllFail [] []) "candidate_id" "" =
        jGetStr (jGetDict ([] : JDict) "candidate_data") "candidate_id"
          ("CAND-" ++ ioAllFail.candStamp)
    ∧ jGetArr (ExecutorAgent.execute ioAllFail [] []) "schedule_ids" = []
    ∧ jGetNum (ExecutorAgent.execute ioAllFail [] []) "proposal_id" 1 = 0 :=
  execute_best_effort_on_store_failure ioAllFail [] [] rfl rfl rfl

/-! ### C9 -/

/-- C9 counterexample: a successful run (complete final output, validation_status
APPROVED, non-empty candidate_id) in which the reviewer reply fails to parse and the
fallback verdict is used, yet no compliance-log row at all is written — refuting the
claim that one row per named check is written even on parse-failure runs. -/
theorem review_compliance_fallback_cex :
    (runWorkflow envFallbacks "Hire an engineer").2 = []
    ∧ jGetStr (runWorkflow envFallbacks "Hire an engineer").1.review_results
        "validation_status" "" = "APPROVED"
    ∧ jGetStr (runWorkflow envFallbacks "Hire an engineer").1.execution_results
        "candidate_id" "" = "CAND-2025-001" :=
  ⟨rfl, rfl, rfl⟩

/-- The compliance-log row the reviewer builds for one entry of the parsed
compliance_checks dict (restates the row construction of _log_compliance for use in
statements). -/
def complianceRowOf (cid now : String) (p : String × Json) : ComplianceRow :=
  { candidate_id := cid, check_type := p.1,
    result := jGetStr p.2.asDict "status" "UNKNOWN",
    details := jGetStr p.2.asDict "details" "",
    checked_by := "REVIEWER_AGENT", checked_at := now }

/-- With every insert succeeding, the insert loop writes exactly one row per entry
of the checks dict, in order. -/
theorem logComplianceRows_all_ok (now cid : String) :
    ∀ (checks : JDict) (i : Nat),
      ReviewerAgent.logComplianceRows (fun _ => true) now cid i checks =
        checks.map (complianceRowOf cid now) := by
  intro checks
  induction checks with
  | nil => intro i; rfl
  | cons p rest ih =>
    intro i
    simp [ReviewerAgent.logComplianceRows, ih (i + 1), complianceRowOf]

/-- C9 amended: compliance-log rows are written only on the successful-parse path.
When the reviewer reply parses and the execution record carries a non-empty
candidate_id, one row per entry of the parsed compliance_checks mapping is written,
each keyed by that candidate_id (assuming the inserts succeed); when the reply fails
to parse, the fallback verdict is returned and no compliance row is written. -/
theorem review_compliance_rows_amended (execution_results coordinated_data : JDict)
    (raw now : String) (r : JDict)
    (hcid : jGetStr execution_results "candidate_id" "" ≠ "") :
    (ReviewerAgent.review execution_results coordinated_data
        { raw := raw, parsed := some r } (fun _ => true) now).2 =
      (jGetDict r "compliance_checks").map
        (complianceRowOf (jGetStr execution_results "candidate_id" "") now)
    ∧ (ReviewerAgent.review execution_results coordinated_data
        { raw := raw, parsed := none } (fun _ => true) now).2 = [] := by
  constructor
  · show ReviewerAgent.logCompliance (fun _ => true) now
      (jGetStr execution_results "candidate_id" "") r = _
    rw [ReviewerAgent.logCompliance, if_neg hcid]
    exact logComplianceRows_all_ok now (jGetStr execution_results "candidate_id" "")
      (jGetDict r "compliance_checks") 0
  · rfl

/-- A parsed reviewer reply carrying the four named compliance checks. -/
def c9ParsedReply : JDict :=
  [("validation_status", Json.str "APPROVED"),
   ("compliance_checks", Json.obj
     [("content_language", Json.obj
        [("status", Json.str "PASS"), ("details", Json.str "ok")]),
      ("compensation", Json.obj
        [("status", Json.str "PASS"), ("details", Json.str "ok")]),
      ("scheduling", Json.obj
        [("status", Json.str "FAIL"), ("details", Json.str "conflict")]),
      ("data_integrity", Json.obj
        [("status", Json.str "PASS"), ("details", Json.str "ok")])])]

/-- Witness for the amended C9 at a concrete parsed reply and execution record. -/
theorem review_compliance_rows_amended_witness :
    (ReviewerAgent.review [("candidate_id", Json.str "CAND-2025-001")] []
        { raw := "", parsed := some c9ParsedReply } (fun _ => true) "2026-01-12").2 =
      (jGetDict c9ParsedReply "compliance_checks").map
        (complianceRowOf (jGetStr [("candidate_id", Json.str "CAND-2025-001")]
          "candidate_id" "") "2026-01-12")
    ∧ (ReviewerAgent.review [("candidate_id", Json.str "CAND-2025-001")] []
        { raw := "", parsed := none } (fun _ => true) "2026-01-12").2 = [] :=
  review_compliance_rows_amended [("candidate_id", Json.str "CAND-2025-001")] []
    "" "2026-01-12" c9ParsedReply (by decide)

/-! ### C10 -/

/-- C10: the coordinator candidate data is the fixed placeholder record — id
CAND-2025-001, name Raja, email raja@example.com — for every task, and consequently
the execution record of every run carries candidate_id CAND-2025-001 (for every
environment, in particular every timestamp, so the timestamp-based fallback id is
never used). -/
theorem candidate_placeholder_fixed (task : JDict) (env : Env) (user_input : String) :
    jGetStr (CoordinatorAgent.fetchCandidateData task) "candidate_id" "" = "CAND-2025-001"
    ∧ jGetStr (CoordinatorAgent.fetchCandidateData task) "name" "" = "Raja"
    ∧ jGetStr (CoordinatorAgent.fetchCandidateData task) "email" "" = "raja@example.com"
    ∧ jGetStr (runWorkflow env user_input).1.execution_results "candidate_id" ""
        = "CAND-2025-001" :=
  ⟨rfl, rfl, rfl, rfl⟩
